import Mathlib

/-!
Verification development for a minimal Node.js forward proxy
(src/proxy_server.js).  The request handler is embedded shallowly:

* `urlParse` models the fragment of Node's legacy `url.parse` that the
  handler exercises (protocol, hostname, port, path+query for targets
  without auth sections, IPv6 brackets, percent-escaping or embedded
  whitespace);
* `requestHandler` is the pure dispatch portion of `requestHandler` in
  proxy_server.js: it either answers locally (help page, 400 error) or
  produces the outbound request options;
* the asynchronous callbacks (response relay, outbound error) are
  embedded as pure functions / event traces over explicit state.
-/

namespace Proxy

/-- Characters admitted by Node's protocol pattern `[a-z0-9.+-]+:` (case
insensitive). -/
def isProtoChar (c : Char) : Bool :=
  c.isAlpha || c.isDigit || c = '.' || c = '+' || c = '-'

/-- Split a leading `proto:` prefix off the input, lowercasing the scheme
as `url.parse` does; `none` when the input does not start with a scheme.
(The parser works on character lists so that every step is structurally
recursive.) -/
def splitProto (cs : List Char) : Option (String × List Char) :=
  let proto := cs.takeWhile isProtoChar
  match cs.drop proto.length with
  | ':' :: rest1 =>
      if proto.isEmpty then none
      else some (String.mk (proto.map Char.toLower ++ [':']), rest1)
  | _ => none

/-- Protocols whose URLs carry `//host` sections (Node's `slashedProtocol`). -/
def slashedProtocols : List String :=
  ["http:", "https:", "ftp:", "gopher:", "file:", "ws:", "wss:"]

/-- Protocols that never carry a host (Node's `hostlessProtocol`). -/
def hostlessProtocols : List String := ["javascript:"]

/-- The numeric value of a digit run. -/
def digitsToNat (ds : List Char) : Nat :=
  ds.foldl (fun n c => 10 * n + (c.toNat - 48)) 0

/-- Split a trailing `:digits` port off a host section, modelling Node's
`portPattern = /:[0-9]*$/`: the last colon counts as a port separator only
when everything after it is a digit; an empty digit run is stripped but
yields no port. -/
def parseHostPort (host : List Char) : List Char × Option Nat :=
  let rev := host.reverse
  let ds := rev.takeWhile Char.isDigit
  match rev.drop ds.length with
  | ':' :: rs =>
      (rs.reverse, if ds.isEmpty then none else some (digitsToNat ds.reverse))
  | _ => (host, none)

/-- A parsed URL as produced by Node's legacy `url.parse` (the fields the
proxy reads). `port` is numeric; Node stores the digit string, which the
handler uses only as a truthy value forwarded to the transport. -/
structure ParsedUrl where
  protocol : Option String
  hostname : Option String
  port     : Option Nat
  path     : Option String
deriving Repr, DecidableEq

/-- Split the post-host remainder into `pathname` and `search`, dropping a
`#fragment`; `path` in `ParsedUrl` is their concatenation. -/
def parseTail (rest : List Char) : Option String × Option String :=
  let noHash := rest.takeWhile (fun c => c ≠ '#')
  let pathname := noHash.takeWhile (fun c => c ≠ '?')
  let search := noHash.drop pathname.length
  (if pathname.isEmpty then none else some (String.mk pathname),
   if search.isEmpty then none else some (String.mk search))

/-- Assemble the `path` field: `pathname` is forced to `/` for a slashed
protocol with a non-empty hostname, and `path = pathname + search` when
either part is present. -/
def mkPath (slashed : Bool) (hostname : Option String)
    (pathname search : Option String) : Option String × Option String :=
  let pathname :=
    if slashed && (hostname.getD "").length > 0 && pathname.isNone then
      some "/"
    else pathname
  let path :=
    if pathname.isSome || search.isSome then
      some (pathname.getD "" ++ search.getD "")
    else none
  (pathname, path)

/-- Model of Node's legacy `url.parse` on the inputs this proxy can meet
(no auth `user@`, no IPv6 `[...]`, no percent-escape normalisation, no
hostname character validation, no embedded whitespace).  A host section is parsed only after `proto://`, or
after a non-slashed protocol, exactly as in Node; otherwise the remainder
is path material and `hostname` stays absent. -/
def urlParse (s : String) : ParsedUrl :=
  match splitProto s.data with
  | none =>
      let (pathname, search) := parseTail s.data
      let (_, path) := mkPath false none pathname search
      { protocol := none, hostname := none, port := none, path := path }
  | some (protocol, rest0) =>
      let hostless := hostlessProtocols.contains protocol
      let slashed := slashedProtocols.contains protocol
      let slashes :=
        (match rest0 with | '/' :: '/' :: _ => true | _ => false) && !hostless
      let rest1 := if slashes then rest0.drop 2 else rest0
      if !hostless && (slashes || !slashed) then
        let host := rest1.takeWhile (fun c => c ≠ '/' && c ≠ '?' && c ≠ '#')
        let rest2 := rest1.drop host.length
        let (hostChars, port) := parseHostPort host
        let hostname := String.mk (hostChars.map Char.toLower)
        let (pathname, search) := parseTail rest2
        let (_, path) := mkPath slashed (some hostname) pathname search
        { protocol := some protocol, hostname := some hostname
          port := port, path := path }
      else
        let (pathname, search) := parseTail rest1
        let (_, path) := mkPath slashed none pathname search
        { protocol := some protocol, hostname := none
          port := none, path := path }

/-- An inbound client request as the handler sees it.  Header names arrive
lowercased (Node normalises inbound header names before the handler runs);
the body is the ordered list of data chunks of the request stream, each a
list of bytes. -/
structure InboundRequest where
  method  : String
  url     : String
  headers : List (String × String)
  body    : List (List Nat)
deriving Repr, DecidableEq

/-- A response written locally by the handler (help page, 400, 500). -/
structure LocalResponse where
  status  : Nat
  headers : List (String × String)
  body    : String
deriving Repr, DecidableEq

/-- The `options` object built for the outbound request (lines 52-61),
plus the transport choice (`https` vs `http`, line 49). -/
structure OutboundOptions where
  hostname : Option String
  port     : Nat
  path     : Option String
  method   : String
  headers  : List (String × String)
  secure   : Bool
deriving Repr, DecidableEq

/-- Outcome of the synchronous part of the handler: either a locally
written response, or the outbound request that gets dispatched. -/
inductive DispatchResult where
  | respond (r : LocalResponse)
  | forward (o : OutboundOptions)
deriving Repr, DecidableEq

/-- The static help page written for an empty target (lines 23-34);
per the spec its content is not load-bearing, only the status and
content type are. -/
def helpHtml : String :=
  "\n            <html>\n                <body style=\"font-family: sans-serif; background-color: #0d1117; color: white; padding: 20px;\">\n                    <h2>Simple Node.js Web Proxy</h2>\n                    <p>To use, prepend the full URL you want to access to the proxy\x27s address:</p>\n                    <p style=\"background-color: #21262d; padding: 10px; border-radius: 6px;\">\n                        <strong>Example (replace this address with your deployed domain):</strong> [YOUR_VERCEL_DOMAIN]/https://www.google.com\n                    </p>\n                    <p>This proxy forwards GET requests and returns the content.</p>\n                </body>\n            </html>\n        "

/-- The 400 response of the protocol check (lines 43-44). -/
def protocolErrorResponse : LocalResponse :=
  { status := 400, headers := [("Content-Type", "text/plain")]
    body := "Error: Only http or https protocols are supported." }

/-- The help-page response for an empty target (lines 22-34). -/
def helpResponse : LocalResponse :=
  { status := 200, headers := [("Content-Type", "text/html")], body := helpHtml }

/-- Shallow embedding of `requestHandler` (proxy_server.js lines 14-63) up
to the point where the outbound request is dispatched:

* `targetUrl = req.url.slice(1)` (line 18); empty target → help page;
* `url.parse` then the protocol check (lines 39-46);
* otherwise the outbound options: hostname/port/path from the parsed URL
  (port defaulting 443/80 by scheme), inbound method, a copy of the
  inbound headers with the `host` key deleted (lines 52-61), and the
  transport module selected by scheme (line 49). -/
def requestHandler (req : InboundRequest) : DispatchResult :=
  let targetUrl := req.url.drop 1
  if targetUrl.isEmpty then
    .respond helpResponse
  else
    let parsedUrl := urlParse targetUrl
    if parsedUrl.protocol ≠ some "http:" && parsedUrl.protocol ≠ some "https:" then
      .respond protocolErrorResponse
    else
      let isHttps := parsedUrl.protocol = some "https:"
      .forward
        { hostname := parsedUrl.hostname
          port := parsedUrl.port.getD (if isHttps then 443 else 80)
          path := parsedUrl.path
          method := req.method
          headers := req.headers.filter (fun p => p.1 ≠ "host")
          secure := isHttps }

/-- The outbound options the handler builds for a valid target (the
forward branch of `requestHandler`, spelled out for reuse in proofs). -/
def outboundOf (req : InboundRequest) : OutboundOptions :=
  let parsedUrl := urlParse (req.url.drop 1)
  let isHttps := parsedUrl.protocol = some "https:"
  { hostname := parsedUrl.hostname
    port := parsedUrl.port.getD (if isHttps then 443 else 80)
    path := parsedUrl.path
    method := req.method
    headers := req.headers.filter (fun p => p.1 ≠ "host")
    secure := isHttps }

/-- The outbound response as delivered to the response callback: status,
headers, and the ordered list of body data chunks. -/
structure OutboundResponse where
  statusCode : Nat
  headers    : List (String × String)
  body       : List (List Nat)
deriving Repr, DecidableEq

/-- The actions the response callback performs, in program order
(lines 66-71): `res.writeHead(proxyRes.statusCode, proxyRes.headers)`,
then `proxyRes.pipe(res)`. -/
inductive RelayAction where
  | writeHead (status : Nat) (headers : List (String × String))
  | pipeBody (chunks : List (List Nat))
deriving Repr, DecidableEq

/-- The response callback of lines 66-72 as an action list. -/
def responseCallback (proxyRes : OutboundResponse) : List RelayAction :=
  [.writeHead proxyRes.statusCode proxyRes.headers, .pipeBody proxyRes.body]

/-- A client-observable event: a header block or one body chunk. -/
inductive RelayEvent where
  | head (status : Nat) (headers : List (String × String))
  | chunk (bytes : List Nat)
deriving Repr, DecidableEq

/-- Execute relay actions into the event sequence the client observes:
`writeHead` emits the header block, `pipe` emits each data chunk in
arrival order (Node's `readable.pipe(writable)` writes chunks to the
destination in the order they are read, without re-chunking). -/
def execActions : List RelayAction → List RelayEvent
  | [] => []
  | .writeHead s h :: rest => .head s h :: execActions rest
  | .pipeBody cs :: rest => cs.map .chunk ++ execActions rest

/-- The event sequence the client observes for an outbound response. -/
def relayTrace (proxyRes : OutboundResponse) : List RelayEvent :=
  execActions (responseCallback proxyRes)

/-- The chunk payloads of a trace, in order. -/
def traceChunks (t : List RelayEvent) : List (List Nat) :=
  t.filterMap fun e =>
    match e with
    | .chunk bs => some bs
    | .head _ _ => none

/-- The body bytes a trace delivers, in order. -/
def traceBytes (t : List RelayEvent) : List Nat :=
  (traceChunks t).flatten

/-- The inbound body chunks written to the outbound request by
`req.pipe(proxyReq)` (line 84): each chunk in arrival order. -/
def forwardedRequestBody (req : InboundRequest) : List (List Nat) :=
  traceChunks (execActions [.pipeBody req.body])

/-- The `error` callback on the outbound request (lines 75-81): when the
response headers have not been sent yet, write a 500 plain-text response
carrying the error message; otherwise write nothing further. -/
def proxyReqOnError (headersSent : Bool) (msg : String) : Option LocalResponse :=
  if !headersSent then
    some { status := 500, headers := [("Content-Type", "text/plain")]
           body := "Proxy Error: Could not reach target server. (" ++ msg ++ ")" }
  else
    none

/-! ### Per-request write-once discipline

The asynchronous part of one forwarded request is driven by the events of
the outbound exchange: the response callback (line 66) and the `error`
callback (line 75).  Node fires the response callback at most once, and
never after the request has errored, so in any run the response event can
only come first.  The state tracks `res.headersSent` and how many times
`res.writeHead` has been called. -/

/-- An event of the outbound exchange that reaches one of the two
registered callbacks. -/
inductive OutboundEvent where
  | response (r : OutboundResponse)
  | reqError (msg : String)
deriving Repr, DecidableEq

/-- Whether an event is the response callback firing. -/
def isResponseEvent : OutboundEvent → Bool
  | .response _ => true
  | .reqError _ => false

/-- Client-response state across the callbacks of one request. -/
structure RelayState where
  headersSent : Bool
  writes      : Nat
deriving Repr, DecidableEq

/-- One callback firing: the response callback calls `res.writeHead`
unconditionally (line 68); the error callback calls it only when
`res.headersSent` is still false (lines 77-80). -/
def stepEvent (s : RelayState) : OutboundEvent → RelayState
  | .response _ => { headersSent := true, writes := s.writes + 1 }
  | .reqError _ =>
      if s.headersSent then s
      else { headersSent := true, writes := s.writes + 1 }

/-- Run a sequence of outbound events from a state. -/
def runEvents (s : RelayState) (es : List OutboundEvent) : RelayState :=
  es.foldl stepEvent s

/-- Scenarios the Node HTTP client can produce for one request: the
response callback fires at most once and never after an `error`, so a
response event can only be the first event. -/
def validScenario (es : List OutboundEvent) : Prop :=
  ∀ e ∈ es.tail, isResponseEvent e = false

instance : DecidablePred validScenario := fun es =>
  List.decidableBAll (fun e => isResponseEvent e = false) es.tail

/-- Total number of `res.writeHead` calls for a request: each local branch
of the handler (help page, line 22; protocol error, line 43) writes one
head and returns without dispatching, so outbound events only drive the
count when the handler forwards. -/
def writeHeadCount (req : InboundRequest) (es : List OutboundEvent) : Nat :=
  match requestHandler req with
  | .respond _ => 1
  | .forward _ => (runEvents { headersSent := false, writes := 0 } es).writes

/-! ### Error listeners and process survival

`requestHandler` registers exactly one `error` listener: on the outbound
request `proxyReq` (line 75).  No listener is attached to the outbound
response stream `proxyRes`, the inbound request stream `req`, or the
client response stream `res` (`pipe` forwards data, not `error` events).
Per Node's `EventEmitter` semantics, an `error` event with no registered
listener is thrown as an uncaught exception, which is fatal to the
process. -/

/-- The per-request streams on which an `error` event can be emitted. -/
inductive ErrorSource where
  | outboundRequest
  | outboundResponse
  | inboundRequest
  | clientResponse
deriving Repr, DecidableEq

/-- The error listeners `requestHandler` registers: only
`proxyReq.on(..)` at line 75. -/
def registeredErrorListeners : List ErrorSource := [.outboundRequest]

/-- Outcome of emitting an `error` event. -/
inductive EmitOutcome where
  | handled
  | uncaughtException
deriving Repr, DecidableEq

/-- Node `EventEmitter` semantics for `error` events: handled when a
listener is registered for the emitting stream, otherwise thrown as an
uncaught exception (fatal: the process does not survive). -/
def emitError (listeners : List ErrorSource) (s : ErrorSource) : EmitOutcome :=
  if s ∈ listeners then .handled else .uncaughtException

/-! ### Helper lemmas -/

lemma urlParse_empty_protocol : (urlParse "").protocol = none := by decide

lemma target_nonempty_of_valid {req : InboundRequest}
    (h : (urlParse (req.url.drop 1)).protocol = some "http:" ∨
         (urlParse (req.url.drop 1)).protocol = some "https:") :
    (req.url.drop 1).isEmpty = false := by
  cases hx : (req.url.drop 1).isEmpty with
  | false => rfl
  | true =>
      exfalso
      have hs : req.url.drop 1 = "" := (String.isEmpty_iff _).mp hx
      rw [hs, urlParse_empty_protocol] at h
      rcases h with h | h <;> exact Option.noConfusion h

/-- For a target whose parsed protocol is `http:` or `https:`, the handler
reaches the forward branch and builds exactly `outboundOf req`. -/
lemma handler_forward (req : InboundRequest)
    (h : (urlParse (req.url.drop 1)).protocol = some "http:" ∨
         (urlParse (req.url.drop 1)).protocol = some "https:") :
    requestHandler req = .forward (outboundOf req) := by
  have hne := target_nonempty_of_valid h
  rcases h with h | h <;> simp [requestHandler, outboundOf, hne, h]

/-- For a non-empty target whose parsed protocol is neither `http:` nor
`https:`, the handler answers 400 locally. -/
lemma handler_invalid (req : InboundRequest)
    (h1 : req.url.drop 1 ≠ "")
    (h2 : (urlParse (req.url.drop 1)).protocol ≠ some "http:")
    (h3 : (urlParse (req.url.drop 1)).protocol ≠ some "https:") :
    requestHandler req = .respond protocolErrorResponse := by
  have hne : (req.url.drop 1).isEmpty = false := by
    cases hx : (req.url.drop 1).isEmpty with
    | false => rfl
    | true => exact absurd ((String.isEmpty_iff _).mp hx) h1
  simp [requestHandler, hne, h2, h3]

/-- `relayTrace` in closed form: the header block first, then the body
chunks in order. -/
lemma relayTrace_eq (proxyRes : OutboundResponse) :
    relayTrace proxyRes =
      RelayEvent.head proxyRes.statusCode proxyRes.headers ::
        proxyRes.body.map RelayEvent.chunk := by
  simp [relayTrace, responseCallback, execActions]

lemma traceChunks_map_chunk (cs : List (List Nat)) :
    traceChunks (cs.map RelayEvent.chunk) = cs := by
  induction cs with
  | nil => rfl
  | cons c cs ih => simp [traceChunks, List.filterMap_cons] at ih ⊢; exact ih

/-- From a state whose headers are already sent, error-only event suffixes
change nothing (the error callback is guarded by `res.headersSent`). -/
lemma runEvents_no_more_writes (es : List OutboundEvent)
    (hval : ∀ e ∈ es, isResponseEvent e = false)
    (s : RelayState) (hs : s.headersSent = true) :
    runEvents s es = s := by
  induction es generalizing s with
  | nil => rfl
  | cons e es ih =>
      have he : isResponseEvent e = false := hval e (List.mem_cons_self e es)
      cases e with
      | response r => simp [isResponseEvent] at he
      | reqError m =>
          have hstep : stepEvent s (OutboundEvent.reqError m) = s := by
            simp [stepEvent, hs]
          calc runEvents s (OutboundEvent.reqError m :: es)
              = runEvents (stepEvent s (OutboundEvent.reqError m)) es := rfl
            _ = runEvents s es := by rw [hstep]
            _ = s := ih (fun e hm => hval e (List.mem_cons_of_mem _ hm)) s hs

/-! ### Claims -/

/-- C1: for every inbound request whose target URL parses with scheme
`http` or `https`, the outbound request keeps the inbound method, and its
headers are exactly the inbound headers (Node delivers inbound header
names lowercased) with the `host` entry deleted — nothing else added,
dropped, or rewritten. -/
theorem forwarded_method_and_headers (req : InboundRequest)
    (h : (urlParse (req.url.drop 1)).protocol = some "http:" ∨
         (urlParse (req.url.drop 1)).protocol = some "https:") :
    ∃ o : OutboundOptions, requestHandler req = .forward o ∧
      o.method = req.method ∧
      o.headers = req.headers.filter (fun p => p.1 ≠ "host") :=
  ⟨outboundOf req, handler_forward req h, rfl, rfl⟩

/-- Witness for C1 at a concrete request. -/
theorem forwarded_method_and_headers_witness :
    ((urlParse (("/http://example.com/a" : String).drop 1)).protocol = some "http:" ∨
     (urlParse (("/http://example.com/a" : String).drop 1)).protocol = some "https:") ∧
    ∃ o : OutboundOptions,
      requestHandler
        { method := "POST", url := "/http://example.com/a"
          headers := [("host", "proxy.local"), ("accept", "*/*")], body := [] } =
        .forward o ∧
      o.method = "POST" ∧ o.headers = [("accept", "*/*")] := by
  refine ⟨Or.inl (by decide), ?_⟩
  obtain ⟨o, h1, h2, h3⟩ :=
    forwarded_method_and_headers
      { method := "POST", url := "/http://example.com/a"
        headers := [("host", "proxy.local"), ("accept", "*/*")], body := [] }
      (Or.inl (by decide))
  exact ⟨o, h1, h2, h3.trans (by decide)⟩

/-- C2: a non-empty target whose parsed scheme is not exactly `http` or
`https` is answered locally with 400, `text/plain`, and the exact error
body; no outbound request is built. -/
theorem invalid_protocol_400 (req : InboundRequest)
    (h1 : req.url.drop 1 ≠ "")
    (h2 : (urlParse (req.url.drop 1)).protocol ≠ some "http:")
    (h3 : (urlParse (req.url.drop 1)).protocol ≠ some "https:") :
    requestHandler req =
      .respond { status := 400, headers := [("Content-Type", "text/plain")]
                 body := "Error: Only http or https protocols are supported." } :=
  handler_invalid req h1 h2 h3

/-- Witness for C2 at a concrete `ftp:` target. -/
theorem invalid_protocol_400_witness :
    (("/ftp://example.com/x" : String).drop 1 ≠ "") ∧
    requestHandler { method := "GET", url := "/ftp://example.com/x", headers := [], body := [] } =
      .respond { status := 400, headers := [("Content-Type", "text/plain")]
                 body := "Error: Only http or https protocols are supported." } :=
  ⟨by decide,
   invalid_protocol_400
     { method := "GET", url := "/ftp://example.com/x", headers := [], body := [] }
     (by decide) (by decide) (by decide)⟩

/-- C3: the relay writes the outbound response's status code and full
header set to the client first and unchanged — the first client-observable
event is exactly `writeHead(proxyRes.statusCode, proxyRes.headers)`, with
no header stripped, added, or rewritten. -/
theorem response_head_passthrough (proxyRes : OutboundResponse) :
    (relayTrace proxyRes).head? =
      some (RelayEvent.head proxyRes.statusCode proxyRes.headers) := rfl

/-- C4: an outbound failure before headers are sent yields a 500
`text/plain` response with the exact body around the error message; after
headers are sent it yields no further client-visible response. -/
theorem outbound_error_response (msg : String) :
    proxyReqOnError false msg =
      some { status := 500, headers := [("Content-Type", "text/plain")]
             body := "Proxy Error: Could not reach target server. (" ++ msg ++ ")" } ∧
    proxyReqOnError true msg = none :=
  ⟨rfl, rfl⟩

/-- C5: when the path minus its leading `/` is empty the handler answers
200 with `Content-Type: text/html` (the static help page) for any method,
and builds no outbound request. -/
theorem empty_target_help (req : InboundRequest) (h : req.url.drop 1 = "") :
    requestHandler req =
      .respond { status := 200, headers := [("Content-Type", "text/html")]
                 body := helpHtml } := by
  have he : (req.url.drop 1).isEmpty = true := (String.isEmpty_iff _).mpr h
  simp [requestHandler, he, helpResponse]

/-- Witness for C5 at a concrete non-GET request on `/`. -/
theorem empty_target_help_witness :
    (("/" : String).drop 1 = "") ∧
    requestHandler { method := "POST", url := "/", headers := [("host", "p")], body := [[1, 2]] } =
      .respond { status := 200, headers := [("Content-Type", "text/html")]
                 body := helpHtml } :=
  ⟨by decide,
   empty_target_help
     { method := "POST", url := "/", headers := [("host", "p")], body := [[1, 2]] }
     (by decide)⟩

/-- C6: headers are written before any body byte, the body chunks reach
the client in arrival order without re-chunking (so the delivered bytes
equal the target's bytes, including for an empty body), and the inbound
request body is piped to the target chunk-for-chunk in order. -/
theorem streaming_order_and_integrity (proxyRes : OutboundResponse) (req : InboundRequest) :
    (relayTrace proxyRes).head? =
      some (RelayEvent.head proxyRes.statusCode proxyRes.headers) ∧
    (relayTrace proxyRes).tail = proxyRes.body.map RelayEvent.chunk ∧
    traceBytes (relayTrace proxyRes) = proxyRes.body.flatten ∧
    forwardedRequestBody req = req.body := by
  refine ⟨?_, ?_, ?_, ?_⟩
  · rw [relayTrace_eq]; rfl
  · rw [relayTrace_eq]; rfl
  · rw [traceBytes, relayTrace_eq]
    have hskip :
        traceChunks (RelayEvent.head proxyRes.statusCode proxyRes.headers ::
            proxyRes.body.map RelayEvent.chunk) =
          traceChunks (proxyRes.body.map RelayEvent.chunk) := rfl
    rw [hskip, traceChunks_map_chunk]
  · rw [forwardedRequestBody]
    show traceChunks (req.body.map RelayEvent.chunk ++ execActions []) = req.body
    rw [show execActions [] = [] from rfl, List.append_nil, traceChunks_map_chunk]

/-- C7: for a valid target, the outbound port is the URL's explicit port
when present and the scheme default (443 for `https`, 80 for `http`)
otherwise; the outbound path is the parsed path+query unchanged; and the
TLS transport is chosen exactly when the scheme is `https`. -/
theorem outbound_target_options (req : InboundRequest)
    (h : (urlParse (req.url.drop 1)).protocol = some "http:" ∨
         (urlParse (req.url.drop 1)).protocol = some "https:") :
    ∃ o : OutboundOptions, requestHandler req = .forward o ∧
      (∀ n, (urlParse (req.url.drop 1)).port = some n → o.port = n) ∧
      ((urlParse (req.url.drop 1)).port = none →
        o.port =
          if (urlParse (req.url.drop 1)).protocol = some "https:" then 443 else 80) ∧
      o.path = (urlParse (req.url.drop 1)).path ∧
      (o.secure = true ↔ (urlParse (req.url.drop 1)).protocol = some "https:") := by
  refine ⟨outboundOf req, handler_forward req h, ?_, ?_, rfl, ?_⟩
  · intro n hn; simp [outboundOf, hn]
  · intro hn; simp [outboundOf, hn]
  · simp [outboundOf]

/-- Witness for C7 at a concrete `https` target with an explicit port. -/
theorem outbound_target_options_witness :
    ((urlParse (("/https://h:8443/a/b?x=1" : String).drop 1)).protocol = some "http:" ∨
     (urlParse (("/https://h:8443/a/b?x=1" : String).drop 1)).protocol = some "https:") ∧
    ∃ o : OutboundOptions,
      requestHandler
        { method := "GET", url := "/https://h:8443/a/b?x=1", headers := [], body := [] } =
        .forward o ∧
      o.port = 8443 ∧ o.path = some "/a/b?x=1" ∧ o.secure = true := by
  refine ⟨Or.inr (by decide), ?_⟩
  obtain ⟨o, h1, hp, _, hpath, hsec⟩ :=
    outbound_target_options
      { method := "GET", url := "/https://h:8443/a/b?x=1", headers := [], body := [] }
      (Or.inr (by decide))
  exact ⟨o, h1, hp 8443 (by decide), hpath.trans (by decide), hsec.mpr (by decide)⟩

/-- C9: for a non-empty target, the handler answers the 400 protocol error
exactly when the parsed protocol is neither `http:` nor `https:`; and for
the target `http:/foo` (scheme `http` but no parseable host) validation
passes and an outbound request is built with an absent hostname. -/
theorem protocol_gate_exact_and_hostless_forward :
    (∀ req : InboundRequest, req.url.drop 1 ≠ "" →
      (requestHandler req =
          .respond { status := 400, headers := [("Content-Type", "text/plain")]
                     body := "Error: Only http or https protocols are supported." } ↔
        ¬((urlParse (req.url.drop 1)).protocol = some "http:" ∨
          (urlParse (req.url.drop 1)).protocol = some "https:"))) ∧
    (∃ o : OutboundOptions,
      requestHandler { method := "GET", url := "/http:/foo", headers := [], body := [] } =
        .forward o ∧ o.hostname = none) := by
  constructor
  · intro req h1
    constructor
    · intro hresp hvalid
      have hf := handler_forward req hvalid
      rw [hresp] at hf
      exact DispatchResult.noConfusion hf
    · intro hinv
      push_neg at hinv
      exact handler_invalid req h1 hinv.1 hinv.2
  · exact ⟨{ hostname := none, port := 80, path := some "/foo", method := "GET"
             headers := [], secure := false }, by decide, rfl⟩

/-- Witness for C9 at a concrete rejected target. -/
theorem protocol_gate_exact_witness :
    (("/file:///etc/passwd" : String).drop 1 ≠ "") ∧
    requestHandler { method := "GET", url := "/file:///etc/passwd", headers := [], body := [] } =
      .respond { status := 400, headers := [("Content-Type", "text/plain")]
                 body := "Error: Only http or https protocols are supported." } :=
  ⟨by decide,
   (protocol_gate_exact_and_hostless_forward.1
     { method := "GET", url := "/file:///etc/passwd", headers := [], body := [] }
     (by decide)).mpr (by decide)⟩

/-- C10: across one request, `res.writeHead` runs at most once: the local
branches are mutually exclusive and each writes one head, and the error
callback writes only when `res.headersSent` is still false. -/
theorem writeHead_at_most_once (req : InboundRequest) (es : List OutboundEvent)
    (hval : validScenario es) : writeHeadCount req es ≤ 1 := by
  rw [writeHeadCount]
  cases hreq : requestHandler req with
  | respond r => exact le_refl 1
  | forward o =>
      cases es with
      | nil => simp [runEvents]
      | cons e es' =>
          have h1 : stepEvent { headersSent := false, writes := 0 } e =
              { headersSent := true, writes := 1 } := by
            cases e <;> simp [stepEvent]
          have h2 : runEvents { headersSent := false, writes := 0 } (e :: es') =
              runEvents { headersSent := true, writes := 1 } es' := by
            show runEvents (stepEvent { headersSent := false, writes := 0 } e) es' = _
            rw [h1]
          rw [h2, runEvents_no_more_writes es' hval _ rfl]

/-- Witness for C10: a request whose outbound exchange errors twice. -/
theorem writeHead_at_most_once_witness :
    validScenario [OutboundEvent.reqError "ECONNREFUSED", OutboundEvent.reqError "again"] ∧
    writeHeadCount { method := "GET", url := "/http://h/", headers := [], body := [] }
      [OutboundEvent.reqError "ECONNREFUSED", OutboundEvent.reqError "again"] ≤ 1 :=
  ⟨by decide,
   writeHead_at_most_once
     { method := "GET", url := "/http://h/", headers := [], body := [] }
     [OutboundEvent.reqError "ECONNREFUSED", OutboundEvent.reqError "again"]
     (by decide)⟩

/-- C8 counterexample: the handler registers an `error` listener only on
the outbound request (line 75); an `error` emitted by the outbound
response stream mid-transfer has no listener and is an uncaught exception
— fatal to the process, contradicting the claim that every error is
handled at the request boundary. -/
theorem outbound_response_error_unhandled :
    emitError registeredErrorListeners ErrorSource.outboundResponse =
      EmitOutcome.uncaughtException := by decide

/-- C8 as amended: errors emitted on the outbound request are handled by
the registered listener (500 before headers, log only after); every other
per-request stream — in particular the outbound response stream — has no
listener, so an error there is an uncaught exception and is fatal to the
process. -/
theorem error_listener_coverage :
    emitError registeredErrorListeners ErrorSource.outboundRequest = EmitOutcome.handled ∧
    ∀ s : ErrorSource, s ≠ ErrorSource.outboundRequest →
      emitError registeredErrorListeners s = EmitOutcome.uncaughtException := by
  refine ⟨by decide, ?_⟩
  intro s hs
  cases s with
  | outboundRequest => exact absurd rfl hs
  | outboundResponse => decide
  | inboundRequest => decide
  | clientResponse => decide

/-- Witness for the amended C8 at the outbound response stream. -/
theorem error_listener_coverage_witness :
    emitError registeredErrorListeners ErrorSource.outboundRequest = EmitOutcome.handled ∧
    emitError registeredErrorListeners ErrorSource.outboundResponse =
      EmitOutcome.uncaughtException :=
  ⟨error_listener_coverage.1,
   error_listener_coverage.2 ErrorSource.outboundResponse (by decide)⟩

end Proxy
